import Mathlib

/-!
Verification of the hun-bot-three core components against their specification.

The development shallowly embeds the TypeScript sources:
- src/utils/ReducedMotion.ts        (ReducedMotion)
- src/core/AssetLoader.ts           (AssetLoader)
- src/utils/ResourceDisposer.ts     (ResourceDisposer)
- src/core/CameraController.ts      (CameraController)
- src/utils/PerformanceMonitor.ts   (PerformanceMonitor)
- SceneManager (planned in specs/ and the quickstart as src/core/SceneManager.ts
  but absent from the repository) is modelled from the spec.

JavaScript numbers are embedded as rationals; the arithmetic performed by this
code (copies, sums, divisions by small constants, powers of two) is exact at
the granularity these claims are about. Maps keyed by URL are embedded as
association lists. Asynchronous behaviour is embedded by making each
synchronous turn of an async function an explicit step on an explicit state,
so that interleavings of concurrent calls are sequences of steps.
-/

set_option autoImplicit false

namespace HunBot

/-! ## ReducedMotion (src/utils/ReducedMotion.ts)

The OS preference read by isReduced via matchMedia is embedded as a boolean
parameter isReduced passed to each function. -/

namespace ReducedMotion

/-- Embeds ReducedMotion.getDurationMultiplier: 0.01 when the reduced-motion
preference is active, 1.0 otherwise. -/
def getDurationMultiplier (isReduced : Bool) : ℚ :=
  if isReduced then 1/100 else 1

/-- Embeds ReducedMotion.getAdjustedDuration. The TypeScript signature has a
default reducedDuration of 0.01; callers relying on the default pass 1/100
here explicitly. -/
def getAdjustedDuration (isReduced : Bool) (normalDuration reducedDuration : ℚ) : ℚ :=
  if isReduced then reducedDuration else normalDuration

end ReducedMotion

/-! ## AssetLoader (src/core/AssetLoader.ts)

Loaded texture and model values, and the error values produced by the
underlying three.js loaders, are type parameters. The underlying
textureLoader.load / gltfLoader.load call is embedded as an oracle from the
attempt index to a result; the claims quantify over that oracle. Only the
callbacks issued by the AssetLoader retry code itself are modelled; callbacks
routed through the three.js LoadingManager are behaviour of the external
library, not of this repository. -/

namespace AssetLoader

/-- The argument passed to the registered error callback after all retries are
exhausted: the code passes lastError when one was captured, and otherwise a
freshly constructed generic Error. -/
inductive FinalError (ε : Type) where
  | underlying (e : ε)
  | generic

/-- Outcome of one call to AssetLoader.loadTexture or AssetLoader.loadModel,
recording every observable of the claims: how many underlying load attempts
were issued, the backoff delays awaited between attempts (milliseconds, in
order), the error-callback invocations made by the retry code, the value
returned or the rejection, and the cache after the call. -/
structure LoadRun (τ ε : Type) where
  attempts : Nat
  delaysMs : List ℚ
  errorCalls : List (String × FinalError ε)
  outcome : Except String τ
  cacheAfter : List (String × τ)

/-- Association-list lookup embedding Map.get / Map.has on the URL-keyed
caches. -/
def lookupCache {τ : Type} : List (String × τ) → String → Option τ
  | [], _ => none
  | (k, v) :: rest, url => if k = url then some v else lookupCache rest url

/-- The retry loop body of loadTexture / loadModel (for-loop over attempt with
exponential backoff). Arguments: the load oracle, maxRetries, the current
attempt index, and the remaining loop iterations as fuel (initially
maxRetries, so the loop runs for attempt = 0 .. maxRetries - 1 exactly as the
TypeScript for-loop does). Returns the number of attempts issued, the delays
awaited, and either the loaded value or the last captured error (none when no
attempt ran, matching lastError staying null). -/
def retryLoop {τ ε : Type} (load : Nat → Except ε τ) (maxRetries : Nat) :
    Nat → Nat → Nat × List ℚ × Except (Option ε) τ
  | _, 0 => (0, [], Except.error none)
  | attempt, fuel + 1 =>
    match load attempt with
    | Except.ok t => (1, [], Except.ok t)
    | Except.error e =>
      if attempt < maxRetries - 1 then
        match retryLoop load maxRetries (attempt + 1) fuel with
        | (n, ds, r) =>
          (n + 1, ((2 : ℚ) ^ attempt * 1000) :: ds,
            match r with
            | Except.ok t => Except.ok t
            | Except.error none => Except.error (some e)
            | Except.error (some e2) => Except.error (some e2))
      else
        (1, [], Except.error (some e))

/-- The rejection message of loadTexture, built as in the TypeScript template
string. -/
def textureFailMessage (url : String) (maxRetries : Nat) : String :=
  "Failed to load texture " ++ url ++ " after " ++ toString maxRetries ++ " attempts"

/-- The rejection message of loadModel. -/
def modelFailMessage (url : String) (maxRetries : Nat) : String :=
  "Failed to load model " ++ url ++ " after " ++ toString maxRetries ++ " attempts"

/-- Embeds one complete call of AssetLoader.loadTexture: return the cached
value when the URL is cached; otherwise run the retry loop, caching on
success; on exhaustion invoke the registered error callback once with the URL
and lastError (or a generic error when lastError is null) and reject. -/
def loadTexture {τ ε : Type} (textureCache : List (String × τ)) (url : String)
    (maxRetries : Nat) (load : Nat → Except ε τ) : LoadRun τ ε :=
  match lookupCache textureCache url with
  | some t =>
    { attempts := 0, delaysMs := [], errorCalls := [],
      outcome := Except.ok t, cacheAfter := textureCache }
  | none =>
    match retryLoop load maxRetries 0 maxRetries with
    | (n, ds, Except.ok t) =>
      { attempts := n, delaysMs := ds, errorCalls := [],
        outcome := Except.ok t, cacheAfter := (url, t) :: textureCache }
    | (n, ds, Except.error lastError) =>
      { attempts := n, delaysMs := ds,
        errorCalls := [(url,
          match lastError with
          | some e => FinalError.underlying e
          | none => FinalError.generic)],
        outcome := Except.error (textureFailMessage url maxRetries),
        cacheAfter := textureCache }

/-! ### Interleaved loadModel calls

loadModel has exactly one suspension point before its first underlying fetch:
it synchronously checks the model cache and, on a miss, synchronously calls
gltfLoader.load inside the awaited promise constructor. A later interleaved
turn resumes when the fetch settles. The in-flight period of a call is
therefore the span between these two turns, and concurrent calls are
sequences of start turns that all run before any completion turn. -/

/-- State of the AssetLoader shared by interleaved loadModel calls: the
URL-keyed model cache plus a count of underlying gltfLoader.load fetches
issued so far. -/
structure ModelLoaderState (μ : Type) where
  modelCache : List (String × μ)
  fetchesIssued : Nat

/-- First synchronous turn of AssetLoader.loadModel(url), up to its first
suspension point: check the cache; on a hit the call returns the cached value
with no fetch; on a miss the call issues one underlying gltfLoader.load fetch
and suspends. There is no in-flight-request map in the source, so nothing in
this turn records that a fetch for the same URL is already pending. -/
def loadModelStart {μ : Type} (s : ModelLoaderState μ) (url : String) :
    ModelLoaderState μ × Option μ :=
  match lookupCache s.modelCache url with
  | some m => (s, some m)
  | none => ({ s with fetchesIssued := s.fetchesIssued + 1 }, none)

/-- Resumption turn of a suspended loadModel call whose fetch for the URL
settled successfully with the value gltf: the value is stored in the model
cache (Map.set; the association list is consed, which shadows any previous
binding exactly as Map.set overwrites) and returned to the caller. -/
def loadModelComplete {μ : Type} (s : ModelLoaderState μ) (url : String) (gltf : μ) :
    ModelLoaderState μ :=
  { s with modelCache := (url, gltf) :: s.modelCache }

/-- n interleaved loadModel(url) calls all issued before any of their fetches
settles: n consecutive start turns. -/
def loadModelStarts {μ : Type} (s : ModelLoaderState μ) (url : String) :
    Nat → ModelLoaderState μ
  | 0 => s
  | n + 1 => loadModelStarts (loadModelStart s url).1 url n

end AssetLoader

/-! ## SceneManager (absent from the repository)

The plan (specs/three-hb-portfolio, quickstart) lists
src/core/SceneManager.ts, but no such file exists in the repository; the
navigation guard is therefore modelled from the spec. -/

namespace SceneManager

/-- Modelled from the spec: the SceneManager transition state of spec sections
3 and 4.7 (SceneTransitionState), restricted to the fields the navigation
guard reads and writes. The missing code is src/core/SceneManager.ts. -/
structure State where
  currentSceneId : String
  previousSceneId : Option String
  isTransitioning : Bool

/-- Modelled from the spec: the navigation request guard of spec section 4.7,
step 1 and 2: a request while already Transitioning, or whose target equals
currentSceneId, is rejected immediately as a no-op; otherwise the manager
enters Transitioning. The missing code is src/core/SceneManager.ts. Returns
the new state and whether the request was accepted. -/
def navigateTo (s : State) (toId : String) : State × Bool :=
  if s.isTransitioning ∨ toId = s.currentSceneId then (s, false)
  else ({ s with isTransitioning := true }, true)

/-- A sequence of navigation requests issued synchronously without awaiting
completion: no transition-completion event runs between the requests. Returns
the final state and how many requests were accepted (started a transition). -/
def navigateSeq (s : State) : List String → State × Nat
  | [] => (s, 0)
  | toId :: rest =>
    match navigateTo s toId with
    | (s1, accepted) =>
      match navigateSeq s1 rest with
      | (s2, n) => (s2, (if accepted then 1 else 0) + n)

end SceneManager

/-! ## ResourceDisposer (src/utils/ResourceDisposer.ts)

GPU resource handles (geometries, materials, textures) are identified by
natural-number ids; a dispose event is the invocation of the dispose method of
one handle, and a run of the disposer is embedded as the list of dispose
events it emits, in order. The mock handles of the spec scenarios never throw,
and the source wraps every disposal in try/catch in any case, so no
error-propagation channel is modelled. -/

namespace ResourceDisposer

/-- A three.js material as the disposer sees it: the handle ids of its
texture-valued properties in property order (the values found by the
Object.keys scan of disposeMaterial) plus the handle id of the material
itself. -/
structure MaterialRep where
  textures : List Nat
  matId : Nat
deriving DecidableEq, Repr

/-- A three.js Object3D as the disposer sees it: an optional geometry handle,
an optional material slot (a single material or a material array, already in
the list form that the Array.isArray normalisation of disposeMaterial
produces), and the children. -/
inductive Obj3D where
  | mk (geometry : Option Nat) (material : Option (List MaterialRep)) (children : List Obj3D)

/-- The geometry slot of an object. -/
def Obj3D.geometry : Obj3D → Option Nat
  | .mk g _ _ => g

/-- The material slot of an object. -/
def Obj3D.material : Obj3D → Option (List MaterialRep)
  | .mk _ m _ => m

/-- The children of an object. -/
def Obj3D.children : Obj3D → List Obj3D
  | .mk _ _ cs => cs

/-- Dispose events of ResourceDisposer.disposeGeometry: the dispose call on
the geometry handle when one is present. -/
def disposeGeometryTrace : Option Nat → List Nat
  | none => []
  | some g => [g]

/-- Dispose events of ResourceDisposer.disposeMaterial on one material: the
Object.keys scan disposes every texture-valued property first, then the
material itself. -/
def disposeOneMaterialTrace (mat : MaterialRep) : List Nat :=
  mat.textures ++ [mat.matId]

/-- Dispose events of ResourceDisposer.disposeMaterial on a material slot
(null is a no-op; an array is processed in order). -/
def disposeMaterialTrace : Option (List MaterialRep) → List Nat
  | none => []
  | some mats => (mats.map disposeOneMaterialTrace).flatten

/-- Dispose events the disposer emits for the own resources of one object,
ignoring its children: geometry first, then the material slot, exactly as
disposeObject3D does after the recursion over children. -/
def ownTrace (o : Obj3D) : List Nat :=
  disposeGeometryTrace o.geometry ++ disposeMaterialTrace o.material

mutual

/-- Dispose events of ResourceDisposer.disposeObject3D: recursively dispose
every child first (over a copy of the children array), then the own geometry,
then the own material slot. removeFromParent emits no dispose event. -/
def disposeObject3DTrace : Obj3D → List Nat
  | .mk g m cs =>
    disposeChildrenTrace cs ++ disposeGeometryTrace g ++ disposeMaterialTrace m

/-- Dispose events of the recursion of disposeObject3D over a children list,
in order. -/
def disposeChildrenTrace : List Obj3D → List Nat
  | [] => []
  | c :: cs => disposeObject3DTrace c ++ disposeChildrenTrace cs

end

/-- Dispose events of disposeObject3D on a nullable argument: null and
undefined are a no-op. -/
def disposeObject3DOptTrace : Option Obj3D → List Nat
  | none => []
  | some o => disposeObject3DTrace o

mutual

/-- The resource handle ids attached to an object graph, collected in
declaration order (own geometry, own materials, then children): the
occurrences of resources reachable from the root, where a handle shared by
several attachment points occurs once per attachment. -/
def resourceIds : Obj3D → List Nat
  | .mk g m cs =>
    disposeGeometryTrace g ++ disposeMaterialTrace m ++ resourceIdsList cs

/-- Resource handle ids of a list of objects. -/
def resourceIdsList : List Obj3D → List Nat
  | [] => []
  | c :: cs => resourceIds c ++ resourceIdsList cs

end

/-- The object graph disposeObject3D leaves behind: every child was
recursively disposed and then detached via removeFromParent, so the children
list is empty, while the geometry and material properties of the object are
untouched (their dispose methods are called but the properties are not
cleared). -/
def afterDispose : Obj3D → Obj3D
  | .mk g m _ => .mk g m []

/-- afterDispose lifted to the nullable argument. -/
def afterDisposeOpt : Option Obj3D → Option Obj3D
  | none => none
  | some o => some (afterDispose o)

end ResourceDisposer

/-! ## CameraController (src/core/CameraController.ts)

The controller is embedded as a state machine. Each transitionTo call creates
one GSAP timeline (at most one is tracked by activeTween) and returns one
promise; timeline ids double as promise ids. The operations below are the
methods that touch activeTween, plus the natural-completion event of the
active timeline (its onComplete callback, the only place the promise is
resolved). applyParallax never reads or writes activeTween and creates no
tracked tween, so it is not part of this state machine. Camera positions are
rational 3-vectors. -/

namespace CameraController

/-- A 3-vector of rationals standing for THREE.Vector3. -/
structure Vec3 where
  x : ℚ
  y : ℚ
  z : ℚ
deriving DecidableEq, Repr

/-- Operations on the controller that touch the active tween, plus the
environment event of the active timeline completing naturally. -/
inductive Op where
  | transitionTo (position target : Vec3)
  | setPosition (position : Vec3) (target : Option Vec3)
  | cancelTransition
  | dispose
  | tweenComplete

/-- Controller state: the id supply for timelines/promises, the active tween
(id and the destination position its timeline animates toward), the ids of
tweens killed by cancellation, and the ids of promises that have been
resolved (one entry per resolve call, so multiplicity counts resolutions). -/
structure State where
  nextTweenId : Nat
  activeTween : Option (Nat × Vec3)
  killedTweens : List Nat
  resolvedPromises : List Nat
  cameraPosition : Vec3

/-- The initial controller state after the constructor: no active tween, no
kills, no resolutions. -/
def initState (startPos : Vec3) : State :=
  { nextTweenId := 0, activeTween := none, killedTweens := [],
    resolvedPromises := [], cameraPosition := startPos }

/-- The cancellation prologue shared by transitionTo, setPosition,
cancelTransition and dispose: if a tween is active, kill it and clear
activeTween. Killing a GSAP animation halts it without firing onComplete, so
no promise is resolved here. -/
def killActive (s : State) : State :=
  match s.activeTween with
  | some (i, _) => { s with activeTween := none, killedTweens := i :: s.killedTweens }
  | none => s

/-- One step of the controller. transitionTo: cancel any active tween, then
create and track a fresh timeline toward the new position (its promise is
pending). setPosition: cancel any active tween, then copy the position
immediately. cancelTransition and dispose: cancel any active tween (dispose
just calls cancelTransition). tweenComplete: the active timeline finished
naturally; its onComplete clears activeTween, fires the callback and resolves
the promise; the camera has arrived at the tween destination. -/
def step (s : State) : Op → State
  | .transitionTo position _target =>
    let s1 := killActive s
    { s1 with activeTween := some (s1.nextTweenId, position),
              nextTweenId := s1.nextTweenId + 1 }
  | .setPosition position _target =>
    let s1 := killActive s
    { s1 with cameraPosition := position }
  | .cancelTransition => killActive s
  | .dispose => killActive s
  | .tweenComplete =>
    match s.activeTween with
    | some (i, dest) =>
      { s with activeTween := none,
               resolvedPromises := i :: s.resolvedPromises,
               cameraPosition := dest }
    | none => s

/-- Run a sequence of operations from the initial state. -/
def run (startPos : Vec3) (ops : List Op) : State :=
  ops.foldl step (initState startPos)

/-- A tween/promise id that has been created but neither killed nor resolved:
an in-flight transition. -/
def isAlive (s : State) (i : Nat) : Prop :=
  i < s.nextTweenId ∧ i ∉ s.killedTweens ∧ i ∉ s.resolvedPromises

/-- Bookkeeping invariant of every reachable controller state: the active
tween id was allocated and is in neither log, logged ids were allocated and
appear at most once, no id is both killed and resolved, and every allocated id
is killed, resolved, or the active one. -/
def WF (s : State) : Prop :=
  (∀ i d, s.activeTween = some (i, d) →
    i < s.nextTweenId ∧ i ∉ s.killedTweens ∧ i ∉ s.resolvedPromises) ∧
  (∀ i ∈ s.killedTweens, i < s.nextTweenId) ∧
  (∀ i ∈ s.resolvedPromises, i < s.nextTweenId) ∧
  s.killedTweens.Nodup ∧
  s.resolvedPromises.Nodup ∧
  (∀ i, i ∈ s.killedTweens → i ∉ s.resolvedPromises) ∧
  (∀ i, i < s.nextTweenId →
    i ∈ s.killedTweens ∨ i ∈ s.resolvedPromises ∨ ∃ d, s.activeTween = some (i, d))

end CameraController

/-! ## PerformanceMonitor (src/utils/PerformanceMonitor.ts)

performance.now() is embedded by passing the clock reading of each call
explicitly. The renderer counters read by getMetrics are embedded as a record
passed in. -/

namespace PerformanceMonitor

/-- The renderer.info counters getMetrics reads. -/
structure RendererInfo where
  renderCalls : Nat
  triangles : Nat
  geometries : Nat
  textures : Nat
  programs : Nat
deriving DecidableEq, Repr

/-- The state getMetrics and update operate on: the two rolling histories and
the clock reading of the previous update. -/
structure State where
  frameTimeHistory : List ℚ
  fpsHistory : List ℚ
  lastFrameTime : ℚ
deriving DecidableEq, Repr

/-- The fixed capacity historySize = 120 of the rolling histories. -/
def historySize : Nat := 120

/-- The state after the constructor, given the construction-time clock
reading: both histories empty. -/
def initState (now : ℚ) : State :=
  { frameTimeHistory := [], fpsHistory := [], lastFrameTime := now }

/-- Embeds PerformanceMonitor.update restricted to the history bookkeeping:
compute the frame time from the clock delta, derive FPS (60 when the delta is
not positive), push both samples, and when the frame-time history has grown
past historySize shift both histories, dropping their oldest sample. -/
def update (s : State) (now : ℚ) : State :=
  let frameTime := now - s.lastFrameTime
  let fps := if frameTime > 0 then 1000 / frameTime else 60
  let fth := s.frameTimeHistory ++ [frameTime]
  let fph := s.fpsHistory ++ [fps]
  if fth.length > historySize then
    { frameTimeHistory := fth.tail, fpsHistory := fph.tail, lastFrameTime := now }
  else
    { frameTimeHistory := fth, fpsHistory := fph, lastFrameTime := now }

/-- Embeds PerformanceMonitor.reset: clear both histories and restamp
lastFrameTime with the current clock reading. -/
def reset (_s : State) (now : ℚ) : State :=
  { frameTimeHistory := [], fpsHistory := [], lastFrameTime := now }

/-- Math.round of JavaScript: round half toward positive infinity. -/
def jsRound (q : ℚ) : ℤ := ⌊q + 1/2⌋

/-- Embeds PerformanceMonitor.calculateAverage: 0 on an empty array, else the
rounded mean. -/
def calculateAverage (arr : List ℚ) : ℤ :=
  if arr.length = 0 then 0 else jsRound (arr.sum / arr.length)

/-- Embeds PerformanceMonitor.calculateMedian: 0 on an empty array; otherwise
sort ascending and take the rounded middle element, averaging the two middle
elements when the length is even. -/
def calculateMedian (arr : List ℚ) : ℤ :=
  if arr.length = 0 then 0
  else
    let sorted := arr.insertionSort (fun a b => a ≤ b)
    let mid := sorted.length / 2
    if sorted.length % 2 = 0 then
      jsRound ((sorted.getD (mid - 1) 0 + sorted.getD mid 0) / 2)
    else
      jsRound (sorted.getD mid 0)

/-- Embeds PerformanceMonitor.estimateMemoryUsage: one megabyte per texture
plus half a megabyte per geometry, read from the renderer counters. -/
def estimateMemoryUsage (info : RendererInfo) : ℚ :=
  (info.textures : ℚ) * 1 + (info.geometries : ℚ) * (1/2)

/-- The PerformanceMetrics record getMetrics builds. -/
structure Metrics where
  currentFPS : ℤ
  averageFPS : ℤ
  medianFPS : ℤ
  minFPS : ℚ
  maxFPS : ℚ
  drawCalls : Nat
  triangles : Nat
  geometries : Nat
  textures : Nat
  programs : Nat
  memoryMB : ℚ
  frameTime : ℚ
deriving DecidableEq, Repr

/-- Embeds PerformanceMonitor.getMetrics: null when the FPS history is empty,
otherwise the metrics computed from the histories and the renderer counters
without updating any state. -/
def getMetrics (s : State) (info : RendererInfo) : Option Metrics :=
  if s.fpsHistory.length = 0 then none
  else
    some
      { currentFPS := jsRound ((s.fpsHistory.getLast?).getD 0)
        averageFPS := calculateAverage s.fpsHistory
        medianFPS := calculateMedian s.fpsHistory
        minFPS := (s.fpsHistory.min?).getD 0
        maxFPS := (s.fpsHistory.max?).getD 0
        drawCalls := info.renderCalls
        triangles := info.triangles
        geometries := info.geometries
        textures := info.textures
        programs := info.programs
        memoryMB := estimateMemoryUsage info
        frameTime := (s.frameTimeHistory.getLast?).getD 0 }

/-- The monitor operations a caller can interleave: per-frame update calls and
reset calls, each with its clock reading. -/
inductive Op where
  | update (now : ℚ)
  | reset (now : ℚ)

/-- One monitor operation applied to the state. -/
def stepOp (s : State) : Op → State
  | .update now => update s now
  | .reset now => reset s now

/-- Run a sequence of monitor operations from the freshly constructed state. -/
def runOps (start : ℚ) (ops : List Op) : State :=
  ops.foldl stepOp (initState start)

/-- Counter step for update calls since the most recent reset: an update call
increments the count, a reset call clears it. -/
def tick (n : Nat) : Op → Nat
  | .update _ => n + 1
  | .reset _ => 0

/-- The number of update calls that have occurred since the most recent reset
call (or since construction if no reset occurred). -/
def updatesSinceReset (ops : List Op) : Nat :=
  ops.foldl tick 0

end PerformanceMonitor

end HunBot

namespace HunBot

/-! ## Theorems for claim C4 -/

/-- Claim C4 as stated is false: with the reduced-motion preference active and
no explicit override (the default reducedDuration of 0.01 seconds), a normal
duration of 0.5 seconds is adjusted to 0.01 seconds, which exceeds 1 percent
of 0.5 (= 0.005). -/
theorem C4_counterexample :
    ReducedMotion.getAdjustedDuration true (1/2) (1/100) = 1/100 ∧
    ¬ ReducedMotion.getAdjustedDuration true (1/2) (1/100) ≤ (1/100) * (1/2) := by
  refine ⟨rfl, ?_⟩
  rw [ReducedMotion.getAdjustedDuration]
  norm_num

/-- Claim C4 amended: when the reduced-motion preference is not active,
getAdjustedDuration returns exactly the normal duration; when it is active it
returns the reducedDuration argument (0.01 seconds when the caller relies on
the default), which is at most 1 percent of the normal duration whenever the
normal duration is at least 1 second. -/
theorem C4_adjusted_duration (normal override : ℚ) :
    ReducedMotion.getAdjustedDuration false normal override = normal ∧
    ReducedMotion.getAdjustedDuration true normal override = override ∧
    (1 ≤ normal →
      ReducedMotion.getAdjustedDuration true normal (1/100) ≤ (1/100) * normal) := by
  refine ⟨rfl, rfl, fun h => ?_⟩
  rw [ReducedMotion.getAdjustedDuration]
  simp only [if_pos]
  linarith

/-- Witness for C4_adjusted_duration at normal = 2, override = 5. -/
theorem C4_adjusted_duration_witness :
    ReducedMotion.getAdjustedDuration true 2 (1/100) ≤ (1/100) * 2 :=
  (C4_adjusted_duration 2 5).2.2 (by norm_num)

/-! ## Theorems for claim C1 -/

/-- On a cache miss, the first turn of loadModel issues exactly one underlying
fetch, returns no cached value, and leaves the cache untouched. -/
theorem loadModelStart_miss {μ : Type} (s : AssetLoader.ModelLoaderState μ) (url : String)
    (h : AssetLoader.lookupCache s.modelCache url = none) :
    AssetLoader.loadModelStart s url =
      ({ s with fetchesIssued := s.fetchesIssued + 1 }, none) := by
  simp [AssetLoader.loadModelStart, h]

/-- n interleaved start turns on an uncached URL issue n fetches and leave the
cache untouched. -/
theorem loadModelStarts_uncached {μ : Type} (url : String) (n : Nat)
    (s : AssetLoader.ModelLoaderState μ)
    (h : AssetLoader.lookupCache s.modelCache url = none) :
    (AssetLoader.loadModelStarts s url n).fetchesIssued = s.fetchesIssued + n ∧
    (AssetLoader.loadModelStarts s url n).modelCache = s.modelCache := by
  induction n generalizing s with
  | zero => exact ⟨Nat.add_zero _ ▸ rfl, rfl⟩
  | succ n ih =>
    have hstep : (AssetLoader.loadModelStart s url).1 =
        { s with fetchesIssued := s.fetchesIssued + 1 } := by
      rw [loadModelStart_miss s url h]
    rw [AssetLoader.loadModelStarts, hstep]
    have hih := ih { s with fetchesIssued := s.fetchesIssued + 1 } h
    refine ⟨?_, hih.2⟩
    rw [hih.1]
    show s.fetchesIssued + 1 + n = s.fetchesIssued + (n + 1)
    omega

/-- Claim C1 as stated is false on the code: loadModel keeps no
in-flight-request map, so two loadModel calls for the same uncached URL, the
second issued while the first fetch is still pending, issue two underlying
fetches instead of one. -/
theorem C1_counterexample :
    (AssetLoader.loadModelStarts
        (⟨[], 0⟩ : AssetLoader.ModelLoaderState Nat) "m.glb" 2).fetchesIssued = 2 ∧
    (AssetLoader.loadModelStarts
        (⟨[], 0⟩ : AssetLoader.ModelLoaderState Nat) "m.glb" 2).fetchesIssued ≠ 1 := by
  constructor <;> decide

/-- Claim C1 amended: N loadModel calls for the same uncached URL issued
concurrently (each before any fetch settles) issue N underlying fetches, one
per caller; the single-fetch reuse only holds across sequential calls — once
a load has completed and cached the result, a later loadModel call for that
URL issues no fetch and returns exactly the cached result. -/
theorem C1_loadModel_fetches {μ : Type} (s : AssetLoader.ModelLoaderState μ)
    (url : String) (n : Nat) (v : μ)
    (h : AssetLoader.lookupCache s.modelCache url = none) :
    (AssetLoader.loadModelStarts s url n).fetchesIssued = s.fetchesIssued + n ∧
    AssetLoader.loadModelStart (AssetLoader.loadModelComplete s url v) url =
      (AssetLoader.loadModelComplete s url v, some v) := by
  refine ⟨(loadModelStarts_uncached url n s h).1, ?_⟩
  simp [AssetLoader.loadModelStart, AssetLoader.loadModelComplete, AssetLoader.lookupCache]

/-- Witness for C1_loadModel_fetches: three concurrent calls for an uncached
URL issue three fetches, and after completion a fourth call is served from the
cache. -/
theorem C1_loadModel_fetches_witness :
    (AssetLoader.loadModelStarts
        (⟨[], 0⟩ : AssetLoader.ModelLoaderState Nat) "m.glb" 3).fetchesIssued = 0 + 3 ∧
    AssetLoader.loadModelStart
        (AssetLoader.loadModelComplete (⟨[], 0⟩ : AssetLoader.ModelLoaderState Nat) "m.glb" 7)
        "m.glb" =
      (AssetLoader.loadModelComplete (⟨[], 0⟩ : AssetLoader.ModelLoaderState Nat) "m.glb" 7,
        some 7) :=
  C1_loadModel_fetches ⟨[], 0⟩ "m.glb" 3 7 rfl

/-! ## Theorems for claim C2 -/

/-- A navigation request while transitioning, or whose target is the current
scene, is a rejected no-op. -/
theorem navigateTo_rejected (s : SceneManager.State) (toId : String)
    (h : s.isTransitioning = true ∨ toId = s.currentSceneId) :
    SceneManager.navigateTo s toId = (s, false) := by
  rw [SceneManager.navigateTo, if_pos]
  exact h

/-- A navigation request from an idle manager toward a different scene is
accepted and enters Transitioning. -/
theorem navigateTo_accepted (s : SceneManager.State) (toId : String)
    (h1 : s.isTransitioning = false) (h2 : toId ≠ s.currentSceneId) :
    SceneManager.navigateTo s toId = ({ s with isTransitioning := true }, true) := by
  rw [SceneManager.navigateTo, if_neg]
  intro h
  rcases h with h | h
  · rw [h1] at h
    exact Bool.false_ne_true h
  · exact h2 h

/-- The accepted-request count of an un-awaited navigation sequence is 0 when
the manager is already transitioning and at most 1 otherwise. -/
theorem navigateSeq_count_le (ids : List String) (s : SceneManager.State) :
    (SceneManager.navigateSeq s ids).2 ≤ if s.isTransitioning then 0 else 1 := by
  induction ids generalizing s with
  | nil => simp [SceneManager.navigateSeq]
  | cons toId rest ih =>
    rcases hb : s.isTransitioning with _ | _
    · by_cases hc : toId = s.currentSceneId
      · rw [SceneManager.navigateSeq, navigateTo_rejected s toId (Or.inr hc)]
        have hrest := ih s
        rw [hb] at hrest
        rcases hr : SceneManager.navigateSeq s rest with ⟨s2, n⟩
        rw [hr] at hrest
        simpa [hb, hr] using hrest
      · rw [SceneManager.navigateSeq, navigateTo_accepted s toId hb hc]
        have hrest := ih { s with isTransitioning := true }
        rcases hr : SceneManager.navigateSeq { s with isTransitioning := true } rest with ⟨s2, n⟩
        rw [hr] at hrest
        have hn : n = 0 := by simpa using hrest
        simp [hb, hr, hn]
    · rw [SceneManager.navigateSeq, navigateTo_rejected s toId (Or.inl hb)]
      have hrest := ih s
      rw [hb] at hrest
      rcases hr : SceneManager.navigateSeq s rest with ⟨s2, n⟩
      rw [hr] at hrest
      simpa [hb, hr] using hrest

/-- An un-awaited navigation sequence never changes currentSceneId: only
transition completion (spec section 4.7 step 5) does, and no completion event
runs inside the sequence. -/
theorem navigateSeq_current (ids : List String) (s : SceneManager.State) :
    (SceneManager.navigateSeq s ids).1.currentSceneId = s.currentSceneId := by
  induction ids generalizing s with
  | nil => rfl
  | cons toId rest ih =>
    rw [SceneManager.navigateSeq]
    rcases hb : s.isTransitioning with _ | _
    · by_cases hc : toId = s.currentSceneId
      · rw [navigateTo_rejected s toId (Or.inr hc)]
        rcases hr : SceneManager.navigateSeq s rest with ⟨s2, n⟩
        have := ih s
        rw [hr] at this
        simpa [hr] using this
      · rw [navigateTo_accepted s toId hb hc]
        rcases hr : SceneManager.navigateSeq { s with isTransitioning := true } rest with ⟨s2, n⟩
        have := ih { s with isTransitioning := true }
        rw [hr] at this
        simpa [hr] using this
    · rw [navigateTo_rejected s toId (Or.inl hb)]
      rcases hr : SceneManager.navigateSeq s rest with ⟨s2, n⟩
      have := ih s
      rw [hr] at this
      simpa [hr] using this

/-- Claim C2 (spec-modelled, the SceneManager source is absent from the
repository): a navigation request made while already Transitioning, or whose
target equals currentSceneId, is rejected as a pure no-op; across any sequence
of navigation requests issued without awaiting completion at most one request
is accepted, so at most one transition is ever active, and the current scene
id never changes during the sequence. -/
theorem C2_navigation_guard (s : SceneManager.State) (ids : List String) (toId : String) :
    (s.isTransitioning = true ∨ toId = s.currentSceneId →
      SceneManager.navigateTo s toId = (s, false)) ∧
    (SceneManager.navigateSeq s ids).2 ≤ 1 ∧
    (SceneManager.navigateSeq s ids).1.currentSceneId = s.currentSceneId := by
  refine ⟨fun h => navigateTo_rejected s toId h, ?_, navigateSeq_current ids s⟩
  have := navigateSeq_count_le ids s
  exact this.trans (by split <;> omega)

/-- Witness for C2_navigation_guard: from the idle landing scene, navigating
to landing itself is rejected unchanged, and an un-awaited double request for
the about scene accepts at most one transition. -/
theorem C2_navigation_guard_witness :
    SceneManager.navigateTo ⟨"landing", none, false⟩ "landing" =
      (⟨"landing", none, false⟩, false) ∧
    (SceneManager.navigateSeq ⟨"landing", none, false⟩ ["about", "about"]).2 ≤ 1 ∧
    (SceneManager.navigateSeq
        ⟨"landing", none, false⟩ ["about", "about"]).1.currentSceneId = "landing" := by
  have h := C2_navigation_guard ⟨"landing", none, false⟩ ["about", "about"] "landing"
  exact ⟨h.1 (Or.inr rfl), h.2.1, h.2.2⟩

/-! ## Theorems for claim C3 -/

/-- Claim C3: for every uncached URL whose underlying load fails on every
attempt, loadTexture with the default 3-retry limit makes exactly 3 load
attempts, awaits backoff delays of 2 ^ 0 and 2 ^ 1 seconds (1000 ms and
2000 ms, strictly increasing) between consecutive attempts, invokes the
registered error callback exactly once with the URL and the failure of the
final attempt, rejects, and leaves the texture cache without an entry for
that URL. -/
theorem C3_loadTexture_retry {τ ε : Type} (cache : List (String × τ)) (url : String)
    (e : Nat → ε) (h : AssetLoader.lookupCache cache url = none) :
    AssetLoader.loadTexture cache url 3 (fun i => Except.error (e i)) =
      { attempts := 3,
        delaysMs := [(2 : ℚ) ^ 0 * 1000, (2 : ℚ) ^ 1 * 1000],
        errorCalls := [(url, AssetLoader.FinalError.underlying (e 2))],
        outcome := Except.error (AssetLoader.textureFailMessage url 3),
        cacheAfter := cache } ∧
    List.Chain' (fun a b => a < b)
      (AssetLoader.loadTexture cache url 3 (fun i => Except.error (e i))).delaysMs := by
  have hrun : AssetLoader.loadTexture cache url 3 (fun i => Except.error (e i)) =
      { attempts := 3,
        delaysMs := [(2 : ℚ) ^ 0 * 1000, (2 : ℚ) ^ 1 * 1000],
        errorCalls := [(url, AssetLoader.FinalError.underlying (e 2))],
        outcome := Except.error (AssetLoader.textureFailMessage url 3),
        cacheAfter := cache } := by
    rw [AssetLoader.loadTexture, h]
    norm_num [AssetLoader.retryLoop]
  refine ⟨hrun, ?_⟩
  rw [hrun]
  norm_num

/-- Witness for C3_loadTexture_retry on the empty cache, the URL a.png and an
oracle failing every attempt with the attempt index as the error value. -/
theorem C3_loadTexture_retry_witness :
    AssetLoader.loadTexture ([] : List (String × Nat)) "a.png" 3
        (fun i => Except.error (i : Nat)) =
      { attempts := 3,
        delaysMs := [(2 : ℚ) ^ 0 * 1000, (2 : ℚ) ^ 1 * 1000],
        errorCalls := [("a.png", AssetLoader.FinalError.underlying (2 : Nat))],
        outcome := Except.error (AssetLoader.textureFailMessage "a.png" 3),
        cacheAfter := [] } ∧
    List.Chain' (fun a b => a < b)
      (AssetLoader.loadTexture ([] : List (String × Nat)) "a.png" 3
        (fun i => Except.error (i : Nat))).delaysMs :=
  C3_loadTexture_retry [] "a.png" (fun i => i) rfl

/-! ## Theorems for claims C5 and C6 -/

mutual

/-- The dispose events of disposeObject3D are a permutation of the resource
attachment occurrences reachable from the root: the same multiset of dispose
calls, reordered depth-first child-before-parent. -/
theorem disposeTrace_perm : ∀ o : ResourceDisposer.Obj3D,
    (ResourceDisposer.disposeObject3DTrace o).Perm (ResourceDisposer.resourceIds o)
  | .mk g m cs => by
    rw [ResourceDisposer.disposeObject3DTrace, ResourceDisposer.resourceIds,
      List.append_assoc]
    exact List.perm_append_comm.trans
      ((disposeChildrenTrace_perm cs).append_left
        (ResourceDisposer.disposeGeometryTrace g ++ ResourceDisposer.disposeMaterialTrace m))

/-- The dispose events of the recursion over a children list are a permutation
of their resource occurrences. -/
theorem disposeChildrenTrace_perm : ∀ cs : List ResourceDisposer.Obj3D,
    (ResourceDisposer.disposeChildrenTrace cs).Perm (ResourceDisposer.resourceIdsList cs)
  | [] => List.Perm.refl _
  | c :: cs => by
    rw [ResourceDisposer.disposeChildrenTrace, ResourceDisposer.resourceIdsList]
    exact (disposeTrace_perm c).append (disposeChildrenTrace_perm cs)

end

/-- Claim C5 as stated is false on the code: the disposer keeps no visited
set, so a resource handle attached at two places — here geometry handle 7
shared by two sibling children — has its dispose method invoked twice in a
single disposeObject3D call, not exactly once. -/
theorem C5_counterexample :
    (ResourceDisposer.disposeObject3DTrace
        (ResourceDisposer.Obj3D.mk none none
          [ResourceDisposer.Obj3D.mk (some 7) none [],
           ResourceDisposer.Obj3D.mk (some 7) none []])).count 7 = 2 ∧
    (ResourceDisposer.disposeObject3DTrace
        (ResourceDisposer.Obj3D.mk none none
          [ResourceDisposer.Obj3D.mk (some 7) none [],
           ResourceDisposer.Obj3D.mk (some 7) none []])).count 7 ≠ 1 := by
  constructor <;> decide

/-- Claim C5 amended: disposeObject3D emits, at every node, all dispose events
of all children (fully, depth-first) before the dispose events of the node's
own geometry and material resources (textures of a material before the
material itself); the events are exactly the reachable resource attachment
occurrences, one dispose per attachment — hence, whenever no resource handle
is shared between attachment points, every reachable resource's dispose is
invoked exactly once. -/
theorem C5_dispose_order_once (g : Option Nat)
    (m : Option (List ResourceDisposer.MaterialRep)) (cs : List ResourceDisposer.Obj3D)
    (o : ResourceDisposer.Obj3D) (id : Nat)
    (hnd : (ResourceDisposer.resourceIds o).Nodup)
    (hmem : id ∈ ResourceDisposer.resourceIds o) :
    ResourceDisposer.disposeObject3DTrace (ResourceDisposer.Obj3D.mk g m cs)
        = ResourceDisposer.disposeChildrenTrace cs ++
            (ResourceDisposer.disposeGeometryTrace g ++
              ResourceDisposer.disposeMaterialTrace m) ∧
    (ResourceDisposer.disposeObject3DTrace o).Perm (ResourceDisposer.resourceIds o) ∧
    (ResourceDisposer.disposeObject3DTrace o).count id = 1 := by
  refine ⟨by rw [ResourceDisposer.disposeObject3DTrace, List.append_assoc],
    disposeTrace_perm o, ?_⟩
  rw [(disposeTrace_perm o).count_eq]
  exact List.count_eq_one_of_mem hnd hmem

/-- Witness for C5_dispose_order_once on the two-level spec scenario graph:
a root whose material owns texture 10, a child whose material owns texture 20,
a grandchild whose material owns texture 30, no sharing; texture 10 is
disposed exactly once. -/
theorem C5_dispose_order_once_witness :
    ResourceDisposer.disposeObject3DTrace
        (ResourceDisposer.Obj3D.mk none (some [⟨[10], 11⟩])
          [ResourceDisposer.Obj3D.mk none (some [⟨[20], 21⟩])
            [ResourceDisposer.Obj3D.mk none (some [⟨[30], 31⟩]) []]])
        = ResourceDisposer.disposeChildrenTrace
            [ResourceDisposer.Obj3D.mk none (some [⟨[20], 21⟩])
              [ResourceDisposer.Obj3D.mk none (some [⟨[30], 31⟩]) []]] ++
            (ResourceDisposer.disposeGeometryTrace none ++
              ResourceDisposer.disposeMaterialTrace (some [⟨[10], 11⟩])) ∧
    (ResourceDisposer.disposeObject3DTrace
        (ResourceDisposer.Obj3D.mk none (some [⟨[10], 11⟩])
          [ResourceDisposer.Obj3D.mk none (some [⟨[20], 21⟩])
            [ResourceDisposer.Obj3D.mk none (some [⟨[30], 31⟩]) []]])).Perm
      (ResourceDisposer.resourceIds
        (ResourceDisposer.Obj3D.mk none (some [⟨[10], 11⟩])
          [ResourceDisposer.Obj3D.mk none (some [⟨[20], 21⟩])
            [ResourceDisposer.Obj3D.mk none (some [⟨[30], 31⟩]) []]])) ∧
    (ResourceDisposer.disposeObject3DTrace
        (ResourceDisposer.Obj3D.mk none (some [⟨[10], 11⟩])
          [ResourceDisposer.Obj3D.mk none (some [⟨[20], 21⟩])
            [ResourceDisposer.Obj3D.mk none (some [⟨[30], 31⟩]) []]])).count 10 = 1 :=
  C5_dispose_order_once none (some [⟨[10], 11⟩])
    [ResourceDisposer.Obj3D.mk none (some [⟨[20], 21⟩])
      [ResourceDisposer.Obj3D.mk none (some [⟨[30], 31⟩]) []]]
    (ResourceDisposer.Obj3D.mk none (some [⟨[10], 11⟩])
      [ResourceDisposer.Obj3D.mk none (some [⟨[20], 21⟩])
        [ResourceDisposer.Obj3D.mk none (some [⟨[30], 31⟩]) []]])
    10 (by decide) (by decide)

/-- Claim C6 as stated is false on the code: the disposer marks nothing as
disposed, so a second disposeObject3D call on an already-disposed root mesh
(geometry handle 0) invokes the geometry's dispose method again — an
additional dispose side effect observable on the handle. -/
theorem C6_counterexample :
    ResourceDisposer.disposeObject3DTrace
        (ResourceDisposer.afterDispose (ResourceDisposer.Obj3D.mk (some 0) none [])) = [0] ∧
    ResourceDisposer.disposeObject3DTrace
        (ResourceDisposer.afterDispose (ResourceDisposer.Obj3D.mk (some 0) none [])) ≠ [] := by
  constructor <;> decide

/-- Claim C6 amended: a null argument is a no-op emitting no dispose event and
leaving nothing behind; a second disposeObject3D call on an already-disposed
object graph produces no error but is not free of side effects: its children
were detached by the first call, so no descendant resource is re-disposed and
the second call is a further no-op below the root, yet the root's own geometry
and material dispose methods are invoked again; a third call behaves like the
second. -/
theorem C6_second_call (o : ResourceDisposer.Obj3D) :
    ResourceDisposer.disposeObject3DOptTrace none = [] ∧
    ResourceDisposer.afterDisposeOpt none = none ∧
    (ResourceDisposer.afterDispose o).children = [] ∧
    ResourceDisposer.disposeObject3DTrace (ResourceDisposer.afterDispose o)
        = ResourceDisposer.ownTrace o ∧
    ResourceDisposer.afterDispose (ResourceDisposer.afterDispose o)
        = ResourceDisposer.afterDispose o := by
  obtain ⟨g, m, cs⟩ := o
  refine ⟨rfl, rfl, rfl, ?_, rfl⟩
  rw [ResourceDisposer.afterDispose, ResourceDisposer.disposeObject3DTrace,
    ResourceDisposer.disposeChildrenTrace, ResourceDisposer.ownTrace]
  rfl

/-! ## Theorems for claims C7 and C8 -/

/-- killActive is the identity when no tween is active. -/
theorem killActive_none (s : CameraController.State) (h : s.activeTween = none) :
    CameraController.killActive s = s := by
  simp [CameraController.killActive, h]

/-- killActive on an active tween clears it and logs it as killed. -/
theorem killActive_some (s : CameraController.State) (i0 : Nat)
    (d0 : CameraController.Vec3) (h : s.activeTween = some (i0, d0)) :
    CameraController.killActive s =
      { s with activeTween := none, killedTweens := i0 :: s.killedTweens } := by
  simp [CameraController.killActive, h]

/-- killActive never allocates ids, never resolves promises, clears the active
tween, and keeps the camera where it is. -/
theorem killActive_fields (s : CameraController.State) :
    (CameraController.killActive s).nextTweenId = s.nextTweenId ∧
    (CameraController.killActive s).activeTween = none ∧
    (CameraController.killActive s).resolvedPromises = s.resolvedPromises ∧
    (CameraController.killActive s).cameraPosition = s.cameraPosition := by
  cases h : s.activeTween with
  | none => rw [killActive_none s h]; exact ⟨rfl, h, rfl, rfl⟩
  | some v =>
    obtain ⟨i0, d0⟩ := v
    rw [killActive_some s i0 d0 h]
    exact ⟨rfl, rfl, rfl, rfl⟩

/-- The completion event is a no-op when no tween is active. -/
theorem step_tweenComplete_none (s : CameraController.State) (h : s.activeTween = none) :
    CameraController.step s CameraController.Op.tweenComplete = s := by
  simp [CameraController.step, h]

/-- The completion event on an active tween clears it, resolves exactly its
promise, and lands the camera on the tween destination. -/
theorem step_tweenComplete_some (s : CameraController.State) (i0 : Nat)
    (d0 : CameraController.Vec3) (h : s.activeTween = some (i0, d0)) :
    CameraController.step s CameraController.Op.tweenComplete =
      { s with activeTween := none, resolvedPromises := i0 :: s.resolvedPromises,
               cameraPosition := d0 } := by
  simp [CameraController.step, h]

/-- The bookkeeping invariant holds in the initial controller state. -/
theorem initState_wf (startPos : CameraController.Vec3) :
    CameraController.WF (CameraController.initState startPos) := by
  refine ⟨?_, ?_, ?_, ?_, ?_, ?_, ?_⟩ <;> simp [CameraController.initState]

/-- killActive preserves the bookkeeping invariant. -/
theorem killActive_wf (s : CameraController.State) (h : CameraController.WF s) :
    CameraController.WF (CameraController.killActive s) := by
  obtain ⟨hact, hkil, hres, hknd, hrnd, hdisj, hcomp⟩ := h
  cases hA : s.activeTween with
  | none => rw [killActive_none s hA]; exact ⟨hact, hkil, hres, hknd, hrnd, hdisj, hcomp⟩
  | some v =>
    obtain ⟨i0, d0⟩ := v
    obtain ⟨hlt0, hk0, hr0⟩ := hact i0 d0 hA
    rw [killActive_some s i0 d0 hA]
    refine ⟨?_, ?_, hres, ?_, hrnd, ?_, ?_⟩
    · intro i d hd
      simp at hd
    · intro i hi
      rcases List.mem_cons.mp hi with hi | hi
      · exact hi ▸ hlt0
      · exact hkil i hi
    · exact List.nodup_cons.mpr ⟨hk0, hknd⟩
    · intro i hi
      rcases List.mem_cons.mp hi with hi | hi
      · exact hi ▸ hr0
      · exact hdisj i hi
    · intro i hi
      rcases hcomp i hi with hk | hr | ⟨d, hd⟩
      · exact Or.inl (List.mem_cons_of_mem _ hk)
      · exact Or.inr (Or.inl hr)
      · rw [hA] at hd
        obtain ⟨rfl, rfl⟩ : i0 = i ∧ d0 = d := by
          injection hd with hd2
          exact ⟨congrArg Prod.fst hd2, congrArg Prod.snd hd2⟩
        exact Or.inl (List.mem_cons_self _ _)

/-- Every controller operation preserves the bookkeeping invariant. -/
theorem step_wf (s : CameraController.State) (op : CameraController.Op)
    (h : CameraController.WF s) : CameraController.WF (CameraController.step s op) := by
  cases op with
  | transitionTo p t =>
    obtain ⟨h1act, h1kil, h1res, h1knd, h1rnd, h1disj, h1comp⟩ := killActive_wf s h
    have hA1 : (CameraController.killActive s).activeTween = none := (killActive_fields s).2.1
    show CameraController.WF
      { CameraController.killActive s with
        activeTween := some ((CameraController.killActive s).nextTweenId, p),
        nextTweenId := (CameraController.killActive s).nextTweenId + 1 }
    refine ⟨?_, ?_, ?_, h1knd, h1rnd, h1disj, ?_⟩
    · intro i d hd
      obtain ⟨rfl, rfl⟩ : (CameraController.killActive s).nextTweenId = i ∧ p = d := by
        injection hd with hd2
        exact ⟨congrArg Prod.fst hd2, congrArg Prod.snd hd2⟩
      refine ⟨Nat.lt_succ_self _, fun hk => ?_, fun hr => ?_⟩
      · exact absurd (h1kil _ hk) (Nat.lt_irrefl _)
      · exact absurd (h1res _ hr) (Nat.lt_irrefl _)
    · intro i hi
      exact Nat.lt_succ_of_lt (h1kil i hi)
    · intro i hi
      exact Nat.lt_succ_of_lt (h1res i hi)
    · intro i hi
      rcases Nat.lt_succ_iff_lt_or_eq.mp hi with hi | rfl
      · rcases h1comp i hi with hk | hr | ⟨d, hd⟩
        · exact Or.inl hk
        · exact Or.inr (Or.inl hr)
        · rw [hA1] at hd
          cases hd
      · exact Or.inr (Or.inr ⟨p, rfl⟩)
  | setPosition p t =>
    obtain ⟨h1act, h1kil, h1res, h1knd, h1rnd, h1disj, h1comp⟩ := killActive_wf s h
    have hA1 : (CameraController.killActive s).activeTween = none := (killActive_fields s).2.1
    show CameraController.WF { CameraController.killActive s with cameraPosition := p }
    exact ⟨fun i d hd => h1act i d hd, h1kil, h1res, h1knd, h1rnd, h1disj, h1comp⟩
  | cancelTransition => exact killActive_wf s h
  | dispose => exact killActive_wf s h
  | tweenComplete =>
    obtain ⟨hact, hkil, hres, hknd, hrnd, hdisj, hcomp⟩ := h
    cases hA : s.activeTween with
    | none =>
      rw [step_tweenComplete_none s hA]
      exact ⟨hact, hkil, hres, hknd, hrnd, hdisj, hcomp⟩
    | some v =>
      obtain ⟨i0, d0⟩ := v
      obtain ⟨hlt0, hk0, hr0⟩ := hact i0 d0 hA
      rw [step_tweenComplete_some s i0 d0 hA]
      refine ⟨?_, hkil, ?_, hknd, ?_, ?_, ?_⟩
      · intro i d hd
        simp at hd
      · intro i hi
        rcases List.mem_cons.mp hi with hi | hi
        · exact hi ▸ hlt0
        · exact hres i hi
      · exact List.nodup_cons.mpr ⟨hr0, hrnd⟩
      · intro i hi hmem
        rcases List.mem_cons.mp hmem with hmem | hmem
        · exact hk0 (hmem ▸ hi)
        · exact hdisj i hi hmem
      · intro i hi
        rcases hcomp i hi with hk | hr | ⟨d, hd⟩
        · exact Or.inl hk
        · exact Or.inr (Or.inl (List.mem_cons_of_mem _ hr))
        · rw [hA] at hd
          obtain ⟨rfl, rfl⟩ : i0 = i ∧ d0 = d := by
            injection hd with hd2
            exact ⟨congrArg Prod.fst hd2, congrArg Prod.snd hd2⟩
          exact Or.inr (Or.inl (List.mem_cons_self _ _))

/-- The bookkeeping invariant holds after any operation sequence. -/
theorem run_wf (startPos : CameraController.Vec3) (ops : List CameraController.Op) :
    CameraController.WF (CameraController.run startPos ops) := by
  rw [CameraController.run]
  generalize hs : CameraController.initState startPos = s0
  have h0 : CameraController.WF s0 := hs ▸ initState_wf startPos
  clear hs
  induction ops generalizing s0 with
  | nil => exact h0
  | cons op rest ih => exact ih _ (step_wf s0 op h0)

/-- Claim C7: at most one camera transition is alive at any reachable state;
a transitionTo call first kills the currently active tween (logging exactly
it) and then tracks the freshly allocated timeline as the only active one; a
setPosition call also kills the active tween, leaves no transition active,
and repositions the camera immediately. -/
theorem C7_single_active_transition (startPos p t : CameraController.Vec3)
    (ops : List CameraController.Op) (i j oldId : Nat) (oldDest : CameraController.Vec3) :
    (CameraController.isAlive (CameraController.run startPos ops) i →
      CameraController.isAlive (CameraController.run startPos ops) j → i = j) ∧
    ((CameraController.run startPos ops).activeTween = some (oldId, oldDest) →
      (CameraController.step (CameraController.run startPos ops)
          (CameraController.Op.transitionTo p t)).killedTweens
        = oldId :: (CameraController.run startPos ops).killedTweens ∧
      (CameraController.step (CameraController.run startPos ops)
          (CameraController.Op.setPosition p (some t))).killedTweens
        = oldId :: (CameraController.run startPos ops).killedTweens) ∧
    (CameraController.step (CameraController.run startPos ops)
        (CameraController.Op.transitionTo p t)).activeTween
      = some ((CameraController.run startPos ops).nextTweenId, p) ∧
    (CameraController.step (CameraController.run startPos ops)
        (CameraController.Op.setPosition p (some t))).activeTween = none ∧
    (CameraController.step (CameraController.run startPos ops)
        (CameraController.Op.setPosition p (some t))).cameraPosition = p := by
  obtain ⟨hact, hkil, hres, hknd, hrnd, hdisj, hcomp⟩ := run_wf startPos ops
  refine ⟨?_, ?_, ?_, ?_, rfl⟩
  · rintro ⟨hilt, hik, hir⟩ ⟨hjlt, hjk, hjr⟩
    rcases hcomp i hilt with hk | hr | ⟨di, hdi⟩
    · exact absurd hk hik
    · exact absurd hr hir
    rcases hcomp j hjlt with hk | hr | ⟨dj, hdj⟩
    · exact absurd hk hjk
    · exact absurd hr hjr
    rw [hdi] at hdj
    injection hdj with hdj2
    exact congrArg Prod.fst hdj2
  · intro hA
    constructor
    · show (CameraController.killActive (CameraController.run startPos ops)).killedTweens
        = oldId :: (CameraController.run startPos ops).killedTweens
      rw [killActive_some _ oldId oldDest hA]
    · show (CameraController.killActive (CameraController.run startPos ops)).killedTweens
        = oldId :: (CameraController.run startPos ops).killedTweens
      rw [killActive_some _ oldId oldDest hA]
  · show some ((CameraController.killActive (CameraController.run startPos ops)).nextTweenId, p)
      = some ((CameraController.run startPos ops).nextTweenId, p)
    rw [(killActive_fields _).1]
  · exact (killActive_fields _).2.1

/-- Witness for C7_single_active_transition: after one transitionTo from the
fresh controller, tween 0 is the single alive transition; a second
transitionTo kills exactly it, and a setPosition leaves no active transition
and moves the camera. -/
theorem C7_single_active_transition_witness :
    (0 : Nat) = 0 ∧
    (CameraController.step
        (CameraController.run ⟨0, 0, 0⟩
          [CameraController.Op.transitionTo ⟨1, 0, 0⟩ ⟨0, 0, 0⟩])
        (CameraController.Op.transitionTo ⟨2, 0, 0⟩ ⟨0, 0, 0⟩)).killedTweens
      = 0 :: (CameraController.run ⟨0, 0, 0⟩
          [CameraController.Op.transitionTo ⟨1, 0, 0⟩ ⟨0, 0, 0⟩]).killedTweens ∧
    (CameraController.step
        (CameraController.run ⟨0, 0, 0⟩
          [CameraController.Op.transitionTo ⟨1, 0, 0⟩ ⟨0, 0, 0⟩])
        (CameraController.Op.setPosition ⟨2, 0, 0⟩ (some ⟨0, 0, 0⟩))).cameraPosition
      = ⟨2, 0, 0⟩ := by
  have h := C7_single_active_transition ⟨0, 0, 0⟩ ⟨2, 0, 0⟩ ⟨0, 0, 0⟩
    [CameraController.Op.transitionTo ⟨1, 0, 0⟩ ⟨0, 0, 0⟩] 0 0 0 ⟨1, 0, 0⟩
  refine ⟨h.1 ⟨?_, ?_, ?_⟩ ⟨?_, ?_, ?_⟩, (h.2.1 rfl).1, h.2.2.2.2⟩ <;> decide

/-- Claim C8: each transition's completion promise is resolved at most once;
a promise whose tween was killed by cancellation (a newer transitionTo,
setPosition, cancelTransition or dispose) is never resolved; and the resolved
log only ever grows through the natural-completion event of the currently
active tween, which resolves exactly that tween's promise. -/
theorem C8_promise_resolution (startPos : CameraController.Vec3)
    (ops : List CameraController.Op) (op : CameraController.Op) (i : Nat) :
    (CameraController.run startPos ops).resolvedPromises.count i ≤ 1 ∧
    (i ∈ (CameraController.run startPos ops).killedTweens →
      i ∉ (CameraController.run startPos ops).resolvedPromises) ∧
    ((CameraController.step (CameraController.run startPos ops) op).resolvedPromises
        ≠ (CameraController.run startPos ops).resolvedPromises →
      ∃ j d, op = CameraController.Op.tweenComplete ∧
        (CameraController.run startPos ops).activeTween = some (j, d) ∧
        (CameraController.step (CameraController.run startPos ops) op).resolvedPromises
          = j :: (CameraController.run startPos ops).resolvedPromises) := by
  obtain ⟨hact, hkil, hres, hknd, hrnd, hdisj, hcomp⟩ := run_wf startPos ops
  refine ⟨List.nodup_iff_count_le_one.mp hrnd i, hdisj i, ?_⟩
  intro hne
  cases op with
  | transitionTo p t =>
    exact absurd ((killActive_fields _).2.2.1) hne
  | setPosition p t =>
    exact absurd ((killActive_fields _).2.2.1) hne
  | cancelTransition => exact absurd ((killActive_fields _).2.2.1) hne
  | dispose => exact absurd ((killActive_fields _).2.2.1) hne
  | tweenComplete =>
    cases hA : (CameraController.run startPos ops).activeTween with
    | none =>
      rw [step_tweenComplete_none _ hA] at hne
      exact absurd rfl hne
    | some v =>
      obtain ⟨j, d⟩ := v
      refine ⟨j, d, rfl, rfl, ?_⟩
      rw [step_tweenComplete_some _ j d hA]

/-- Witness for C8_promise_resolution: after a transition is started and then
cancelled, tween 0 is killed and its promise is unresolved and stays
unresolved; the resolve log of the run is duplicate-free. -/
theorem C8_promise_resolution_witness :
    (CameraController.run ⟨0, 0, 0⟩
        [CameraController.Op.transitionTo ⟨1, 0, 0⟩ ⟨0, 0, 0⟩,
         CameraController.Op.cancelTransition]).resolvedPromises.count 0 ≤ 1 ∧
    (0 : Nat) ∉ (CameraController.run ⟨0, 0, 0⟩
        [CameraController.Op.transitionTo ⟨1, 0, 0⟩ ⟨0, 0, 0⟩,
         CameraController.Op.cancelTransition]).resolvedPromises := by
  have h := C8_promise_resolution ⟨0, 0, 0⟩
    [CameraController.Op.transitionTo ⟨1, 0, 0⟩ ⟨0, 0, 0⟩,
     CameraController.Op.cancelTransition] CameraController.Op.dispose 0
  exact ⟨h.1, h.2.1 (by decide)⟩

/-! ## Theorems for claims C9 and C10 -/

/-- One update call grows both histories to min(previous length + 1, 120) and
keeps their lengths equal. -/
theorem update_length (s : PerformanceMonitor.State) (now : ℚ)
    (hle : s.fpsHistory.length ≤ 120)
    (heq : s.frameTimeHistory.length = s.fpsHistory.length) :
    (PerformanceMonitor.update s now).frameTimeHistory.length
        = min (s.fpsHistory.length + 1) 120 ∧
    (PerformanceMonitor.update s now).fpsHistory.length
        = min (s.fpsHistory.length + 1) 120 := by
  simp only [PerformanceMonitor.update, PerformanceMonitor.historySize]
  by_cases hc : (s.frameTimeHistory ++ [now - s.lastFrameTime]).length > 120
  · rw [if_pos hc]
    dsimp only
    simp only [List.length_tail, List.length_append, List.length_cons,
      List.length_nil] at hc ⊢
    constructor <;> omega
  · rw [if_neg hc]
    dsimp only
    simp only [List.length_append, List.length_cons, List.length_nil] at hc ⊢
    constructor <;> omega

/-- At capacity, one update call drops exactly the oldest sample of each
history and appends the new one. -/
theorem update_at_capacity (s : PerformanceMonitor.State) (now : ℚ)
    (h1 : s.frameTimeHistory.length = 120) (h2 : s.fpsHistory.length = 120) :
    (PerformanceMonitor.update s now).frameTimeHistory
        = s.frameTimeHistory.tail ++ [now - s.lastFrameTime] ∧
    (PerformanceMonitor.update s now).fpsHistory
        = s.fpsHistory.tail ++
            [if now - s.lastFrameTime > 0 then 1000 / (now - s.lastFrameTime) else 60] := by
  simp only [PerformanceMonitor.update, PerformanceMonitor.historySize]
  have hcond : (s.frameTimeHistory ++ [now - s.lastFrameTime]).length > 120 := by
    simp [h1]
  rw [if_pos hcond]
  constructor
  · cases hft : s.frameTimeHistory with
    | nil => rw [hft] at h1; simp at h1
    | cons a l => simp
  · cases hfp : s.fpsHistory with
    | nil => rw [hfp] at h2; simp at h2
    | cons a l => simp

/-- The capped count of updates since reset is insensitive to how a starting
count above the cap is represented. -/
theorem foldTick_min_congr (ops : List PerformanceMonitor.Op) :
    ∀ a b : Nat, min a 120 = min b 120 →
      min (ops.foldl PerformanceMonitor.tick a) 120
        = min (ops.foldl PerformanceMonitor.tick b) 120 := by
  induction ops with
  | nil => intro a b h; simpa using h
  | cons op rest ih =>
    intro a b h
    cases op with
    | update now =>
      simp only [List.foldl_cons, PerformanceMonitor.tick]
      exact ih (a + 1) (b + 1) (by omega)
    | reset now =>
      simp only [List.foldl_cons, PerformanceMonitor.tick]

/-- Running any sequence of monitor operations keeps the FPS history length at
the capped count of updates since the last reset, and both histories the same
length. -/
theorem runOps_lengths (ops : List PerformanceMonitor.Op) :
    ∀ s : PerformanceMonitor.State, s.fpsHistory.length ≤ 120 →
      s.frameTimeHistory.length = s.fpsHistory.length →
      (ops.foldl PerformanceMonitor.stepOp s).fpsHistory.length
          = min (ops.foldl PerformanceMonitor.tick s.fpsHistory.length) 120 ∧
      (ops.foldl PerformanceMonitor.stepOp s).frameTimeHistory.length
          = (ops.foldl PerformanceMonitor.stepOp s).fpsHistory.length := by
  induction ops with
  | nil =>
    intro s h1 h2
    exact ⟨(Nat.min_eq_left h1).symm, h2⟩
  | cons op rest ih =>
    intro s h1 h2
    cases op with
    | update now =>
      have hu := update_length s now h1 h2
      have hle : (PerformanceMonitor.update s now).fpsHistory.length ≤ 120 := by
        rw [hu.2]; omega
      have heq : (PerformanceMonitor.update s now).frameTimeHistory.length
          = (PerformanceMonitor.update s now).fpsHistory.length := by
        rw [hu.1, hu.2]
      have hih := ih (PerformanceMonitor.update s now) hle heq
      simp only [List.foldl_cons, PerformanceMonitor.stepOp, PerformanceMonitor.tick]
      refine ⟨?_, hih.2⟩
      rw [hih.1, hu.2]
      exact foldTick_min_congr rest _ _ (by omega)
    | reset now =>
      have hih := ih (PerformanceMonitor.reset s now) (by simp [PerformanceMonitor.reset])
        (by simp [PerformanceMonitor.reset])
      simp only [List.foldl_cons, PerformanceMonitor.stepOp, PerformanceMonitor.tick]
      refine ⟨hih.1.trans ?_, hih.2⟩
      simp [PerformanceMonitor.reset]

/-- A run consisting only of update calls counts every call. -/
theorem foldTick_updates (nows : List ℚ) :
    ∀ a : Nat, (nows.map PerformanceMonitor.Op.update).foldl PerformanceMonitor.tick a
      = a + nows.length := by
  induction nows with
  | nil => intro a; simp
  | cons now rest ih =>
    intro a
    simp only [List.map_cons, List.foldl_cons, PerformanceMonitor.tick, List.length_cons]
    rw [ih (a + 1)]
    omega

/-- Claim C9: over every sequence of update calls from a fresh monitor, both
rolling histories hold exactly min(number of updates, 120) samples — never
more than the fixed capacity of 120 — and once a history is at capacity each
further update call evicts exactly its oldest sample, shifting the rest and
appending the new sample at the end (FIFO). -/
theorem C9_rolling_capacity (start : ℚ) (nows : List ℚ)
    (s : PerformanceMonitor.State) (now : ℚ)
    (h1 : s.frameTimeHistory.length = 120) (h2 : s.fpsHistory.length = 120) :
    (PerformanceMonitor.runOps start
        (nows.map PerformanceMonitor.Op.update)).fpsHistory.length
        = min nows.length 120 ∧
    (PerformanceMonitor.runOps start
        (nows.map PerformanceMonitor.Op.update)).frameTimeHistory.length
        = min nows.length 120 ∧
    (PerformanceMonitor.update s now).frameTimeHistory
        = s.frameTimeHistory.tail ++ [now - s.lastFrameTime] ∧
    (PerformanceMonitor.update s now).fpsHistory
        = s.fpsHistory.tail ++
            [if now - s.lastFrameTime > 0 then 1000 / (now - s.lastFrameTime) else 60] := by
  have hrun := runOps_lengths (nows.map PerformanceMonitor.Op.update)
    (PerformanceMonitor.initState start) (by simp [PerformanceMonitor.initState])
    (by simp [PerformanceMonitor.initState])
  have hfold : (nows.map PerformanceMonitor.Op.update).foldl PerformanceMonitor.tick
      (PerformanceMonitor.initState start).fpsHistory.length = nows.length := by
    rw [foldTick_updates]
    simp [PerformanceMonitor.initState]
  rw [hfold] at hrun
  have hev := update_at_capacity s now h1 h2
  exact ⟨hrun.1, hrun.2.trans hrun.1, hev.1, hev.2⟩

/-- Witness for C9_rolling_capacity: a monitor at capacity (both histories
holding 120 zero samples, lastFrameTime 0) updated at clock reading 7 evicts
the oldest frame-time sample and appends the new one. -/
theorem C9_rolling_capacity_witness :
    (PerformanceMonitor.update
        ⟨List.replicate 120 0, List.replicate 120 0, 0⟩ 7).frameTimeHistory
      = (List.replicate 120 (0 : ℚ)).tail ++ [7 - 0] :=
  (C9_rolling_capacity 0 [] ⟨List.replicate 120 0, List.replicate 120 0, 0⟩ 7
    (by simp) (by simp)).2.2.1

/-- Claim C10: getMetrics returns null exactly when no update call has
occurred since construction or since the most recent reset; in particular it
returns null immediately after any reset call. -/
theorem C10_getMetrics_null (start : ℚ) (ops : List PerformanceMonitor.Op)
    (info : PerformanceMonitor.RendererInfo)
    (s : PerformanceMonitor.State) (now : ℚ) :
    (PerformanceMonitor.getMetrics (PerformanceMonitor.runOps start ops) info = none ↔
      PerformanceMonitor.updatesSinceReset ops = 0) ∧
    PerformanceMonitor.getMetrics (PerformanceMonitor.reset s now) info = none := by
  constructor
  · have hrun := runOps_lengths ops (PerformanceMonitor.initState start)
      (by simp [PerformanceMonitor.initState]) (by simp [PerformanceMonitor.initState])
    rw [PerformanceMonitor.getMetrics]
    have hlen : (PerformanceMonitor.runOps start ops).fpsHistory.length
        = min (PerformanceMonitor.updatesSinceReset ops) 120 := by
      rw [PerformanceMonitor.runOps, hrun.1]
      rfl
    split_ifs with hz
    · simp only [true_iff]
      rw [hlen] at hz
      omega
    · simp only [false_iff] at hz ⊢
      intro hu
      rw [hlen, hu] at hz
      simp at hz
  · rw [PerformanceMonitor.getMetrics]
    simp [PerformanceMonitor.reset]

end HunBot
